import Mathlib

/-!
Verification of the mcp-golang protocol core, framing layer and server
dispatcher against its specification.  Go source functions are shallowly
embedded as executable Lean definitions: JSON values are an inductive type,
Go maps keyed by strings are association lists, stateful code is explicit
state passing, and fallible code returns `Option`/`Except`.
-/

namespace MCP

/-- JSON values as handled by encoding/json.  Go `map[string]interface{}` is
modelled as an ordered association list (Go maps are unordered, so field
order in `obj` is a presentation choice). Numbers are restricted to the
integers actually used by the protocol (request ids, progress counters). -/
inductive Json where
  | null
  | bool (b : Bool)
  | num (n : Int)
  | str (s : String)
  | arr (items : List Json)
  | obj (fields : List (String × Json))
deriving Repr

/-- Look up a key in a JSON object field list (first binding wins, as in
`List.lookup`). -/
def jsonLookup (fields : List (String × Json)) (k : String) : Option Json :=
  List.lookup k fields

/-- Go `m[k] = v` on a `map[string]interface{}`: replace the binding if the
key exists, else add it.  The new binding is placed first; Go maps carry no
order, so this is observationally faithful through `jsonLookup`. -/
def mapSet (fields : List (String × Json)) (k : String) (v : Json) :
    List (String × Json) :=
  (k, v) :: fields.filter (fun kv => !(kv.1 = k))

theorem jsonLookup_mapSet (fields : List (String × Json)) (k : String) (v : Json) :
    jsonLookup (mapSet fields k v) k = some v := by
  simp [jsonLookup, mapSet, List.lookup]

/- ======================================================================
   C6 — message disambiguation: deserializeMessage (src/stdio.go 122-154)
   ====================================================================== -/

/-- The error object of a JSON-RPC error response
(`JSONRPCErrorError`, src/protocol/types.go): `code` and `message` are
required by its custom `UnmarshalJSON`. -/
structure ErrorBody where
  code : Int
  message : String
deriving Repr, DecidableEq

/-- An incoming wire message after `json.Unmarshal` into
`map[string]interface{}` succeeded (src/stdio.go line 124).  Fields record
presence/absence; `id` is a JSON number as produced by this library
(`RequestId` is an integer). -/
structure WireMessage where
  id : Option Int
  method : Option String
  error : Option ErrorBody
  jsonrpc : Option String
  result : Option Json
deriving Repr

/-- The four classifications the framing layer can produce. -/
inductive MessageKind where
  | request
  | notification
  | errorResponse
  | genericResponse
deriving Repr, DecidableEq

/-- deserializeMessage, src/stdio.go 122-154.  The Go code tries, in order:
1. unmarshal as `JSONRPCRequest` and accept when `req.Method != ""` — plain
   struct unmarshal ignores absent fields, so this accepts any message whose
   `method` is a non-empty string, whether or not `id` is present;
2. unmarshal as `JSONRPCError` (custom unmarshaler requires the `error`,
   `id` and `jsonrpc` keys, and `code`/`message` inside `error`) and accept
   when `err.Error.Code != 0`;
3. unmarshal as `JSONRPCNotification` and accept when `Method != ""`;
4. otherwise return the raw map (a generic success response). -/
def deserializeMessage (m : WireMessage) : MessageKind :=
  if m.method.getD "" ≠ "" then
    MessageKind.request
  else if m.id.isSome ∧ m.error.isSome ∧ m.jsonrpc.isSome ∧
      (m.error.map ErrorBody.code).getD 0 ≠ 0 then
    MessageKind.errorResponse
  else if m.method.getD "" ≠ "" then
    MessageKind.notification
  else
    MessageKind.genericResponse

/-- The wire message `{"jsonrpc":"2.0","method":"ping"}`: a notification
(method present, no id). -/
def notificationWithoutId : WireMessage :=
  { id := none, method := some "ping", error := none,
    jsonrpc := some "2.0", result := none }

/- ======================================================================
   Protocol core (src/stdio.go, package protocol, lines 220-684)
   ====================================================================== -/

/-- `responseEnvelope` (src/stdio.go 296-299): what a response channel
carries to the blocked `Request` caller.  `err` holds the rendered error
message when present. -/
structure Envelope where
  response : Option Json
  err : Option String
deriving Repr

/-- The mutable state of a `Protocol` (src/stdio.go 268-294).  Handler maps
are modelled by the data `Request`'s control flow inspects: registered
method names and the ids holding a registered channel/callback/canceller.
`transportConnected` models `p.transport != nil`. -/
structure ProtocolState where
  transportConnected : Bool
  requestMessageID : Int
  requestHandlers : List String
  notificationHandlers : List String
  requestCancellers : List Int
  responseHandlers : List Int
  progressHandlers : List Int
deriving Repr

/-- `NewProtocol` (src/stdio.go 302-320): fresh maps, id counter at 0, no
transport attached; the two default notification handlers and the default
`ping` request handler are installed. -/
def newProtocol : ProtocolState :=
  { transportConnected := false
    requestMessageID := 0
    requestHandlers := ["ping"]
    notificationHandlers := ["notifications/cancelled", "$/progress"]
    requestCancellers := []
    responseHandlers := []
    progressHandlers := [] }

/-- `Protocol.Connect` (src/stdio.go 323-344) sets `p.transport = tr` and
installs the callbacks; the state effect is that a transport is now
attached. -/
def connect (st : ProtocolState) : ProtocolState :=
  { st with transportConnected := true }

/-- Observable effects of `Protocol.handleClose` (src/stdio.go 346-372). -/
structure CloseEffects where
  cancelledIds : List Int
  wokenWaiters : List (Int × Envelope)
  onCloseInvoked : Bool
deriving Repr

/-- The envelope pushed into every pending response channel on close
(src/stdio.go 362). -/
def connectionClosedEnvelope : Envelope :=
  { response := none, err := some "connection closed" }

/-- `Protocol.handleClose` (src/stdio.go 346-372): clears the request and
notification handler maps, invokes and clears every registered canceller,
pushes a `connection closed` envelope into every pending response channel
and removes it, clears the progress handlers and invokes `OnClose`.  Note:
`p.transport` is left untouched. -/
def handleClose (st : ProtocolState) : ProtocolState × CloseEffects :=
  ({ st with
      requestHandlers := []
      notificationHandlers := []
      requestCancellers := []
      responseHandlers := []
      progressHandlers := [] },
   { cancelledIds := st.requestCancellers
     wokenWaiters := st.responseHandlers.map (fun id => (id, connectionClosedEnvelope))
     onCloseInvoked := true })

/-- The guard at the top of `Protocol.Request` (src/stdio.go 536-538):
`if p.transport == nil { return nil, fmt.Errorf("not connected") }`. -/
def requestNotConnectedCheck (st : ProtocolState) : Option String :=
  if st.transportConnected then none else some "not connected"

/-- A `transport.BaseJsonRpcMessage` (src/unnamed/part_006 201-235): the
tagged message a transport hands to the protocol's message callback. -/
inductive BaseMessage where
  | request (id : Int) (method : String) (params : Json)
  | notification (method : String) (params : Json)
  | response (id : Int) (result : Json)
deriving Repr

/-- The message callback installed by `Connect` (src/stdio.go 334-341).
The Go switch has exactly two cases — request and notification; a
response-type message matches no case and nothing happens.  The second
component lists the envelopes delivered to pending response channels
(the request case registers a canceller and runs the handler; neither arm
touches `responseHandlers`). -/
def connectMessageHandler (st : ProtocolState) (m : BaseMessage) :
    ProtocolState × List (Int × Envelope) :=
  match m with
  | BaseMessage.request id _ _ =>
      ({ st with requestCancellers := st.requestCancellers ++ [id] }, [])
  | BaseMessage.notification _ _ => (st, [])
  | BaseMessage.response _ _ => (st, [])

/-- `Protocol.handleResponse` (src/stdio.go 489-524), as written in the
source: extract the id, look the channel up in `responseHandlers` and, when
one is registered, deliver the result envelope to it.  No call site of this
function exists anywhere in the repository. -/
def handleResponse (st : ProtocolState) (id : Int) (result : Json) :
    ProtocolState × List (Int × Envelope) :=
  if st.responseHandlers.contains id then
    (st, [(id, { response := some result, err := none })])
  else
    (st, [])

/- ======================================================================
   Protocol.Request (src/stdio.go 535-626)
   ====================================================================== -/

/-- `DefaultRequestTimeoutMsec` (src/stdio.go 231). -/
def DefaultRequestTimeoutMsec : Nat := 60000

/-- `RequestOptions` (src/stdio.go 250-258); `timeout` is in milliseconds,
`0` meaning unset; `onProgress` records whether a progress callback was
supplied. -/
structure RequestOptions where
  onProgress : Bool
  timeout : Nat
deriving Repr

/-- The defaulting step at src/stdio.go 548-550:
`if opts.Timeout == 0 { opts.Timeout = DefaultRequestTimeoutMsec ms }`. -/
def effectiveTimeout (t : Nat) : Nat :=
  if t = 0 then DefaultRequestTimeoutMsec else t

/-- The allocation block under the lock (src/stdio.go 552-560): read and
bump `requestMessageID`, register the 1-capacity response channel, register
the progress callback when supplied.  Returns the allocated id and the
state a pending request sees. -/
def requestSetup (st : ProtocolState) (onProgress : Bool) : Int × ProtocolState :=
  (st.requestMessageID,
   { st with
      requestMessageID := st.requestMessageID + 1
      responseHandlers := st.responseHandlers ++ [st.requestMessageID]
      progressHandlers :=
        if onProgress then st.progressHandlers ++ [st.requestMessageID]
        else st.progressHandlers })

/-- The deferred cleanup (src/stdio.go 562-567): delete the response and
progress handlers for `id` before `Request` returns. -/
def requestCleanup (st : ProtocolState) (id : Int) : ProtocolState :=
  { st with
      responseHandlers := st.responseHandlers.filter (fun x => !(x = id))
      progressHandlers := st.progressHandlers.filter (fun x => !(x = id)) }

/-- The `_meta` merge (src/stdio.go 569-585): with a progress callback, the
caller's id becomes the progress token, merged into `params` as
`_meta.progressToken`; `params` must be nil or a JSON mapping, anything
else returns an error before the request is sent. -/
def buildRequestParams (onProgress : Bool) (id : Int) (params : Option Json) :
    Except String (Option Json) :=
  if onProgress then
    match params with
    | none =>
        Except.ok (some (Json.obj [("_meta", Json.obj [("progressToken", Json.num id)])]))
    | some (Json.obj kvs) =>
        Except.ok (some (Json.obj (mapSet kvs "_meta"
          (Json.obj [("progressToken", Json.num id)]))))
    | some _ =>
        Except.error "params must be nil or map[string]interface\x7b\x7d when using progress"
  else
    Except.ok params

/-- The outbound request map (src/stdio.go 587-592). -/
def outboundRequestJson (method : String) (params : Option Json) (id : Int) : Json :=
  Json.obj [("jsonrpc", Json.str "2.0"), ("method", Json.str method),
            ("params", params.getD Json.null), ("id", Json.num id)]

/-- `Protocol.sendCancelNotification` (src/stdio.go 613-626): the
notification sent to the peer when a pending request is cancelled or times
out, carrying the request id and a reason. -/
def cancelNotification (requestID : Int) (reason : String) : Json :=
  Json.obj [("jsonrpc", Json.str "2.0"),
            ("method", Json.str "notifications/cancelled"),
            ("params", Json.obj [("requestId", Json.num requestID),
                                 ("reason", Json.str reason)])]

/-- Which arm of the `select` at src/stdio.go 598-610 fires first. -/
inductive SelectOutcome where
  | response (env : Envelope)
  | ctxDone (ctxErr : String)
  | timedOut
deriving Repr

/-- The errors `Request` can return, one constructor per `return` site,
carrying the data the corresponding format string captures. -/
inductive RequestError where
  | notConnected
  | progressParamsNotMap
  | fromPeer (msg : String)
  | ctxError (msg : String)
  | timeoutAfter (milliseconds : Nat)
deriving Repr, DecidableEq

/-- What one `Protocol.Request` call produces. -/
structure RequestResult where
  post : ProtocolState
  sent : List Json
  result : Except RequestError (Option Json)

/-- `Protocol.Request` (src/stdio.go 535-611), with the blocking `select`
resolved by the given `outcome`: guard on an attached transport, default a
zero timeout to 60 s, allocate the id and register the channel (and the
progress callback), merge `_meta`, send the request, then either deliver
the envelope, or — on context cancellation or timeout — send a
`notifications/cancelled` and return the corresponding error.  `sent` lists
the messages given to `transport.Send`, in order. -/
def protoRequest (st : ProtocolState) (method : String) (params : Option Json)
    (opts : RequestOptions) (outcome : SelectOutcome) : RequestResult :=
  if !st.transportConnected then
    { post := st, sent := [], result := Except.error RequestError.notConnected }
  else
    let t := effectiveTimeout opts.timeout
    let idSt := requestSetup st opts.onProgress
    let id := idSt.1
    let st1 := idSt.2
    match buildRequestParams opts.onProgress id params with
    | Except.error _ =>
        { post := requestCleanup st1 id, sent := []
          result := Except.error RequestError.progressParamsNotMap }
    | Except.ok rp =>
        let req := outboundRequestJson method rp id
        match outcome with
        | SelectOutcome.response env =>
            { post := requestCleanup st1 id, sent := [req]
              result :=
                match env.err with
                | some e => Except.error (RequestError.fromPeer e)
                | none => Except.ok env.response }
        | SelectOutcome.ctxDone ce =>
            { post := requestCleanup st1 id
              sent := [req, cancelNotification id ce]
              result := Except.error (RequestError.ctxError ce) }
        | SelectOutcome.timedOut =>
            { post := requestCleanup st1 id
              sent := [req, cancelNotification id "request timeout"]
              result := Except.error (RequestError.timeoutAfter t) }

/- ======================================================================
   $/progress dispatch (src/stdio.go 443-466)
   ====================================================================== -/

/-- `Progress` (src/stdio.go 234-237). -/
structure ProgressPayload where
  progress : Int
  total : Int
deriving Repr, DecidableEq

/-- `json.Unmarshal` of one `int64` field of the anonymous params struct:
an absent field keeps its zero value, a non-number fails. -/
def fieldInt (kvs : List (String × Json)) (k : String) : Option Int :=
  match jsonLookup kvs k with
  | none => some 0
  | some (Json.num n) => some n
  | some _ => none

/-- Decoding `{progress, total, progressToken}` (src/stdio.go 444-452). -/
def decodeProgressParams (params : Json) : Option (Int × Int × Int) :=
  match params with
  | Json.obj kvs => do
      let p ← fieldInt kvs "progress"
      let t ← fieldInt kvs "total"
      let tok ← fieldInt kvs "progressToken"
      pure (p, t, tok)
  | Json.null => some (0, 0, 0)
  | _ => none

/-- `Protocol.handleProgressNotification` (src/stdio.go 443-466): decode
the params, look up the progress callback registered under the token, and
invoke it with the decoded progress.  `some (token, payload)` records the
invocation of the callback registered under `token`. -/
def handleProgressNotification (st : ProtocolState) (params : Json) :
    Except String (Option (Int × ProgressPayload)) :=
  match decodeProgressParams params with
  | none => Except.error "failed to unmarshal progress params"
  | some (p, t, tok) =>
      if st.progressHandlers.contains tok then
        Except.ok (some (tok, { progress := p, total := t }))
      else
        Except.ok none

/- ======================================================================
   Server registries (src/unnamed/part_008, second file, lines 679-885)
   ====================================================================== -/

/-- `datastructures.SyncMap.Store`: replace the binding when the key is
present, otherwise add it (keyed map semantics; iteration order is
irrelevant, the list handlers sort). -/
def syncMapStore {T : Type} (l : List (String × T)) (k : String) (v : T) :
    List (String × T) :=
  if l.any (fun kv => kv.1 = k) then
    l.map (fun kv => if kv.1 = k then (k, v) else kv)
  else
    l ++ [(k, v)]

/-- `datastructures.SyncMap.Delete`. -/
def syncMapDelete {T : Type} (l : List (String × T)) (k : String) :
    List (String × T) :=
  l.filter (fun kv => !(kv.1 = k))

/-- `datastructures.SyncMap.Load`. -/
def syncMapLoad {T : Type} (l : List (String × T)) (k : String) : Option T :=
  List.lookup k l

theorem lookup_mapStore {T : Type} (k : String) (v : T) :
    ∀ l : List (String × T), l.any (fun kv => kv.1 = k) →
      List.lookup k (l.map (fun kv => if kv.1 = k then (k, v) else kv)) = some v := by
  intro l
  induction l with
  | nil => intro h; simp at h
  | cons hd tl ih =>
      obtain ⟨a, b⟩ := hd
      intro h
      by_cases hk : a = k
      · subst hk
        simp only [List.map_cons, eq_self_iff_true, if_true]
        simp [List.lookup]
      · have hk' : (k == a) = false := by
          simp only [beq_eq_false_iff_ne, ne_eq]
          intro h'
          exact hk h'.symm
        have hmem : tl.any (fun kv => kv.1 = k) := by
          simpa [hk] using h
        simp only [List.map_cons]
        rw [if_neg hk]
        simp [List.lookup, hk', ih hmem]

theorem lookup_appendNew {T : Type} (k : String) (v : T) :
    ∀ l : List (String × T), ¬ l.any (fun kv => kv.1 = k) →
      List.lookup k (l ++ [(k, v)]) = some v := by
  intro l
  induction l with
  | nil => intro _; simp [List.lookup]
  | cons hd tl ih =>
      obtain ⟨a, b⟩ := hd
      intro h
      have hk : ¬ a = k := by
        intro hh
        exact h (by simp [hh])
      have hk' : (k == a) = false := by
        simp only [beq_eq_false_iff_ne, ne_eq]
        intro h'
        exact hk h'.symm
      have htl : ¬ tl.any (fun kv => kv.1 = k) := by
        intro hh
        exact h (by simp [hh])
      simp [List.lookup, hk', ih htl]

theorem syncMapLoad_store {T : Type} (l : List (String × T)) (k : String) (v : T) :
    syncMapLoad (syncMapStore l k v) k = some v := by
  by_cases hmem : l.any (fun kv => kv.1 = k)
  · simp only [syncMapStore, syncMapLoad, hmem, if_true]
    exact lookup_mapStore k v l hmem
  · simp only [syncMapStore, syncMapLoad, hmem, if_false]
    exact lookup_appendNew k v l hmem

theorem syncMapLoad_delete {T : Type} (l : List (String × T)) (k : String) :
    syncMapLoad (syncMapDelete l k) k = none := by
  induction l with
  | nil => simp [syncMapDelete, syncMapLoad, List.lookup]
  | cons hd tl ih =>
      obtain ⟨a, b⟩ := hd
      by_cases hk : a = k
      · simpa [syncMapDelete, syncMapLoad, hk] using ih
      · have hk' : (k == a) = false := by
          simp only [beq_eq_false_iff_ne, ne_eq]
          intro h'
          exact hk h'.symm
        simpa [syncMapDelete, syncMapLoad, List.lookup, hk, hk'] using ih

/-- The registries and running flag of a `Server` (part_008 679-690); tool,
prompt and resource entries are kept abstract (they hold wrapped handler
closures and schema artifacts). -/
structure ServerRegistries (T P R : Type) where
  isRunning : Bool
  tools : List (String × T)
  prompts : List (String × P)
  resources : List (String × R)

/-- A notification handed to `Protocol.Notification`: method and params
(the `list_changed` family always passes `nil`, i.e. JSON `null`). -/
def listChangedNotification (method : String) : String × Json :=
  (method, Json.null)

/-- `Server.sendToolListChangedNotification` (part_008 761-766): nothing
when the server is not running, else exactly one
`notifications/tools/list_changed` with nil params. -/
def sendToolListChangedNotification {T P R : Type} (s : ServerRegistries T P R) :
    List (String × Json) :=
  if s.isRunning then [listChangedNotification "notifications/tools/list_changed"]
  else []

/-- `Server.sendPromptListChangedNotification` (part_008 870-875). -/
def sendPromptListChangedNotification {T P R : Type} (s : ServerRegistries T P R) :
    List (String × Json) :=
  if s.isRunning then [listChangedNotification "notifications/prompts/list_changed"]
  else []

/-- `Server.sendResourceListChangedNotification` (part_008 793-798). -/
def sendResourceListChangedNotification {T P R : Type} (s : ServerRegistries T P R) :
    List (String × Json) :=
  if s.isRunning then [listChangedNotification "notifications/resources/list_changed"]
  else []

/-- `Server.RegisterTool` (part_008 744-759), after its validation step
succeeded: store the wrapped entry under the name, then send the
list-changed notification.  The returned pair is (post state, notifications
emitted after the mutation). -/
def registerTool {T P R : Type} (s : ServerRegistries T P R) (name : String)
    (entry : T) : ServerRegistries T P R × List (String × Json) :=
  let s' := { s with tools := syncMapStore s.tools name entry }
  (s', sendToolListChangedNotification s')

/-- `Server.DeregisterTool` (part_008 773-776). -/
def deregisterTool {T P R : Type} (s : ServerRegistries T P R) (name : String) :
    ServerRegistries T P R × List (String × Json) :=
  let s' := { s with tools := syncMapDelete s.tools name }
  (s', sendToolListChangedNotification s')

/-- `Server.RegisterPrompt` (part_008 854-868), after validation. -/
def registerPrompt {T P R : Type} (s : ServerRegistries T P R) (name : String)
    (entry : P) : ServerRegistries T P R × List (String × Json) :=
  let s' := { s with prompts := syncMapStore s.prompts name entry }
  (s', sendPromptListChangedNotification s')

/-- `Server.DeregisterPrompt` (part_008 882-885). -/
def deregisterPrompt {T P R : Type} (s : ServerRegistries T P R) (name : String) :
    ServerRegistries T P R × List (String × Json) :=
  let s' := { s with prompts := syncMapDelete s.prompts name }
  (s', sendPromptListChangedNotification s')

/-- `Server.RegisterResource` (part_008 778-791), after validation. -/
def registerResource {T P R : Type} (s : ServerRegistries T P R) (uri : String)
    (entry : R) : ServerRegistries T P R × List (String × Json) :=
  let s' := { s with resources := syncMapStore s.resources uri entry }
  (s', sendResourceListChangedNotification s')

/-- `Server.DeregisterResource` (part_008 805-808). -/
def deregisterResource {T P R : Type} (s : ServerRegistries T P R) (uri : String) :
    ServerRegistries T P R × List (String × Json) :=
  let s' := { s with resources := syncMapDelete s.resources uri }
  (s', sendResourceListChangedNotification s')

/- ======================================================================
   Handler validation (part_008 835-852, 974-998, 1387-1410) and the
   register-time outcome (C10)
   ====================================================================== -/

/-- The reflective shape of a user handler: `reflect.Type` data consulted
by the validators. -/
structure HandlerShape where
  numIn : Nat
  numOut : Nat
  out0IsToolResponsePointer : Bool
  out1IsError : Bool
deriving Repr

/-- `validateResourceHandler` (part_008 836-852): no argument, exactly two
return values; the return-type checks are commented out in the source. -/
def validateResourceHandler (h : HandlerShape) : Option String :=
  if h.numIn ≠ 0 then
    some ("handler must take no arguments, got " ++ toString h.numIn)
  else if h.numOut ≠ 2 then
    some ("handler must return exactly two values, got " ++ toString h.numOut)
  else
    none

/-- `validateToolHandler` (part_008 1387-1410). -/
def validateToolHandler (h : HandlerShape) : Option String :=
  if h.numIn ≠ 1 then
    some ("handler must take exactly one argument, got " ++ toString h.numIn)
  else if h.numOut ≠ 2 then
    some ("handler must return exactly two values, got " ++ toString h.numOut)
  else if !h.out0IsToolResponsePointer then
    some "handler must return *tools.ToolResponse"
  else if !h.out1IsError then
    some "handler must return error"
  else
    none

/-- How a `Register*` call on the `Server` terminates. -/
inductive RegisterOutcome where
  | ok
  | returnedError (msg : String)
  | panicked (msg : String)
deriving Repr, DecidableEq

/-- The validation prologue of `Server.RegisterTool` (part_008 744-748):
a failed validation is returned to the caller. -/
def registerToolOutcome (h : HandlerShape) : RegisterOutcome :=
  match validateToolHandler h with
  | some e => RegisterOutcome.returnedError e
  | none => RegisterOutcome.ok

/-- The validation prologue of `Server.RegisterResource` (part_008
778-782): a failed validation is passed to `panic`. -/
def registerResourceOutcome (h : HandlerShape) : RegisterOutcome :=
  match validateResourceHandler h with
  | some e => RegisterOutcome.panicked e
  | none => RegisterOutcome.ok

/-- A field type of a prompt handler's argument struct, as `reflect` shows
it: the kind string (`"string"`, `"ptr"`, `"int"`, …) and, for pointers,
the pointee's kind. -/
structure GoFieldType where
  kind : String
  elemKind : Option String
deriving Repr

/-- The per-field test at part_008 986-992: `string` or pointer to
`string`. -/
def promptFieldValid (t : GoFieldType) : Bool :=
  (t.kind = "string") || ((t.kind = "ptr") && (t.elemKind = some "string"))

/-- `validatePromptHandler` (part_008 975-998): the argument must be a
struct and the loop returns on the first field that is neither `string`
nor `*string`. -/
def validatePromptHandler (argIsStruct : Bool) (argFields : List GoFieldType) :
    Option String :=
  if !argIsStruct then some "argument must be a struct"
  else
    match argFields.find? (fun t => !promptFieldValid t) with
    | some t =>
        some ("all fields of the struct must be of type string or *string, found "
          ++ t.kind)
    | none => none

/-- The validation prologue of `Server.RegisterPrompt` (part_008 854-858):
a failed validation is returned to the caller. -/
def registerPromptOutcome (argIsStruct : Bool) (argFields : List GoFieldType) :
    RegisterOutcome :=
  match validatePromptHandler argIsStruct argFields with
  | some e => RegisterOutcome.returnedError e
  | none => RegisterOutcome.ok

/- ======================================================================
   Prompt-argument descriptors: createPromptSchemaFromHandler
   (part_008 939-972)
   ====================================================================== -/

/-- One field of the handler's argument struct, as `reflect` exposes it:
declared name, the `json:"..."` tag when present, and the raw
`jsonschema:"..."` tag (`""` when absent — `reflect.StructTag.Get` returns
the empty string then, and `strings.Split("", ",")` yields `[""]`, exactly
like `String.splitOn`). -/
structure GoField where
  name : String
  jsonTag : Option String
  jsonschemaTag : String
deriving Repr

/-- A `promptSchemaArgument` as populated at part_008 965-969 (`Required`
is always a non-nil pointer there). -/
structure PromptSchemaArgument where
  name : String
  description : Option String
  required : Bool
deriving Repr, DecidableEq

/-- One iteration of the tag loop at part_008 955-963: a
`description=`-prefixed entry overwrites the description (so the last one
wins), an entry equal to `required` sets the flag. -/
def parseJsonschemaTagStep (acc : Option String × Bool) (tag : String) :
    Option String × Bool :=
  ((if tag.startsWith "description=" then some (tag.drop 12) else acc.1),
   (acc.2 || (tag = "required")))

/-- `createPromptSchemaFromHandler` (part_008 939-972): one descriptor per
field of the argument struct, in declaration order; the name is the
declared field name (`field.Name` — the `json` tag is not consulted);
description and required come from the `jsonschema` tag. -/
def createPromptSchemaFromHandler (fields : List GoField) : List PromptSchemaArgument :=
  fields.map (fun f =>
    let dr := (f.jsonschemaTag.splitOn ",").foldl parseJsonschemaTagStep (none, false)
    { name := f.name, description := dr.1, required := dr.2 })

/-- The naming rule in the spec's words ("named after the field's JSON tag
when present, else the declared field name"); compared against the source
behaviour, never used to define it. -/
def specArgumentName (f : GoField) : String :=
  f.jsonTag.getD f.name

/-- Whether the `jsonschema` annotation contains a `required` entry. -/
def tagRequired (t : String) : Bool :=
  (t.splitOn ",").any (fun s => s = "required")

/-- The description carried by the last `description=` entry of the
`jsonschema` annotation, if any. -/
def tagDescription (t : String) : Option String :=
  ((t.splitOn ",").filter (fun s => s.startsWith "description=")).foldl
    (fun _ s => some (s.drop 12)) none

/- ======================================================================
   Tool response envelope and wrapped tool handler (part_008 604-622,
   1009-1054, 1162-1183; content serialization from src/unnamed/part_004)
   ====================================================================== -/

/-- The MCP content union (text / image / embedded resource). -/
inductive Content where
  | text (text : String)
  | image (data : String) (mimeType : String)
  | embeddedResource (fields : List (String × Json))

/-- Content serialization (src/unnamed/part_004, `ToolResponseContent.MarshalJSON`):
marshal the variant's own fields, then `sjson.SetBytes` appends the
`type` discriminant. -/
def contentJson : Content → Json
  | Content.text t => Json.obj [("text", Json.str t), ("type", Json.str "text")]
  | Content.image d m =>
      Json.obj [("data", Json.str d), ("mimeType", Json.str m), ("type", Json.str "image")]
  | Content.embeddedResource fs => Json.obj (fs ++ [("type", Json.str "resource")])

/-- A `ToolResponse` (ordered content list). -/
structure ToolResponse where
  content : List Content

/-- A `toolResponseSent` (part_008 604-607).  Values are only ever built by
`newToolResponseSent` (response, nil error) or `newToolResponseSentError`
(nil response, error), so it is a sum. -/
inductive ToolResponseSent where
  | ok (response : ToolResponse)
  | fail (errMsg : String)

/-- `toolResponseSent.MarshalJSON` (part_008 610-622): when the error is
set, the content list is replaced by a single text entry holding the error
message (`NewToolResponse(NewTextContent(errorText))`), and `isError` is
`Error != nil`. -/
def marshalToolResponseSent : ToolResponseSent → Json
  | ToolResponseSent.ok r =>
      Json.obj [("content", Json.arr (r.content.map contentJson)),
                ("isError", Json.bool false)]
  | ToolResponseSent.fail e =>
      Json.obj [("content", Json.arr [contentJson (Content.text e)]),
                ("isError", Json.bool true)]

/-- `createWrappedToolHandler` (part_008 1012-1054): decode the raw
`arguments` into the handler's declared argument type — a failure becomes a
`toolResponseSent` error with message `failed to unmarshal arguments: …` —
then invoke the user handler and wrap its response or error. -/
def createWrappedToolHandler {Args : Type}
    (decodeArguments : Json → Except String Args)
    (handler : Args → Except String ToolResponse)
    (arguments : Json) : ToolResponseSent :=
  match decodeArguments arguments with
  | Except.error e => ToolResponseSent.fail ("failed to unmarshal arguments: " ++ e)
  | Except.ok args =>
      match handler args with
      | Except.ok resp => ToolResponseSent.ok resp
      | Except.error e => ToolResponseSent.fail e

/-- A registered tool entry, reduced to what `tools/call` dispatch uses:
the wrapped handler applied to the call's `arguments`. -/
structure ToolEntry where
  handler : Json → ToolResponseSent

/-- `Server.handleToolCalls` (part_008 1162-1183): look the tool up by the
decoded `params.Name` (`Range` with early stop over unique keys = map
lookup); unknown name is a Go error (the protocol layer turns it into a
JSON-RPC error response with code -32000; note the message interpolates
`req.Method`); otherwise the wrapped handler's result is returned with a
nil error, i.e. serialized as a JSON-RPC success result. -/
def handleToolCalls (toolsReg : List (String × ToolEntry)) (reqMethod : String)
    (callName : String) (callArguments : Json) : Except String Json :=
  match syncMapLoad toolsReg callName with
  | none => Except.error ("unknown tool: " ++ reqMethod)
  | some t => Except.ok (marshalToolResponseSent (t.handler callArguments))

/- ======================================================================
   Pagination (part_008 1091-1160 tools, 1206-1267 prompts,
   1269-1335 resources)
   ====================================================================== -/

/-- Go's `<` on strings, char by char (UTF-8 byte order coincides with
code-point order, so this is the comparison `sort.Slice` and the cursor
scans use). -/
def goCharListLess : List Char → List Char → Bool
  | [], [] => false
  | [], _ :: _ => true
  | _ :: _, [] => false
  | a :: as, b :: bs =>
      if a.toNat < b.toNat then true
      else if b.toNat < a.toNat then false
      else goCharListLess as bs

/-- Go `a < b` on strings. -/
def goStringLess (a b : String) : Bool :=
  goCharListLess a.data b.data

/-- `sort.Slice(ordered, func(i,j) ... Name < Name)`: a sort on the
registry keys (map keys are unique, so the order is determined). -/
def insertSorted (x : String) : List String → List String
  | [] => [x]
  | y :: ys => if goStringLess y x then y :: insertSorted x ys else x :: y :: ys

/-- The keys of the registry in ascending order. -/
def sortStrings (l : List String) : List String :=
  l.foldr insertSorted []

/-- The cursor codec: `base64.StdEncoding` `EncodeToString`/`DecodeString`
from the Go standard library, abstracted to any encoding that decodes its
own output (the only property the handlers rely on). -/
structure Codec where
  enc : String → String
  dec : String → Option String
  roundtrip : ∀ s, dec (enc s) = some s

/-- A trivial codec witnessing the `Codec` interface for concrete runs. -/
def idCodec : Codec :=
  { enc := fun s => s, dec := fun s => some s, roundtrip := fun _ => rfl }

/-- The cursor scan of `handleListTools` (part_008 1119-1130): first index
whose key is strictly greater than the decoded cursor; this variant tracks
`found` and moves `startPosition` past the end when no key qualifies. -/
def toolStartPosition (ordered : List String) (c : String) : Nat :=
  match ordered.findIdx? (fun nm => goStringLess c nm) with
  | some i => i
  | none => ordered.length

/-- The cursor scan of `handleListPrompts` (part_008 1234-1240) and
`handleListResources` (part_008 1297-1303): the same loop but with no
`found` flag — when no key exceeds the cursor, `startPosition` keeps its
initial value 0 and the page restarts from the beginning. -/
def promptStartPosition (ordered : List String) (c : String) : Nat :=
  match ordered.findIdx? (fun nm => goStringLess c nm) with
  | some i => i
  | none => 0

/-- The slice loop (part_008 1132-1148): `endPosition` is the list length,
clamped to `startPosition + limit` when a pagination limit is configured. -/
def pageSlice (ordered : List String) (start : Nat) (limit : Option Nat) :
    List String :=
  let endPos :=
    match limit with
    | some l => if ordered.length > start + l then start + l else ordered.length
    | none => ordered.length
  (ordered.drop start).take (endPos - start)

/-- The `NextCursor` closure (part_008 1152-1158): present iff a limit is
configured and the page filled it, holding the encoding of the last
returned key.  (With `paginationLimit` 0 and an empty page the Go code
would index `[-1]` and panic; no claim exercises a zero limit.) -/
def nextCursorFor (codec : Codec) (limit : Option Nat) (page : List String) :
    Option String :=
  match limit with
  | some l => if page.length ≥ l then page.getLast?.map codec.enc else none
  | none => none

/-- The common shape of the three `*/list` handlers, over the registry's
keys: unmarshal `{cursor}`, sort, decode the cursor if present, slice, and
attach the next cursor.  `startPosOf` is the only point where the three
handlers differ. -/
def handleListKeys (codec : Codec) (startPosOf : List String → String → Nat)
    (limit : Option Nat) (reg : List String) (cursor : Option String) :
    Except String (List String × Option String) :=
  let ordered := sortStrings reg
  match cursor with
  | none =>
      let page := pageSlice ordered 0 limit
      Except.ok (page, nextCursorFor codec limit page)
  | some cur =>
      match codec.dec cur with
      | none => Except.error "failed to decode cursor"
      | some k =>
          let page := pageSlice ordered (startPosOf ordered k) limit
          Except.ok (page, nextCursorFor codec limit page)

/-- `Server.handleListTools` (part_008 1091-1160), restricted to the keys
it returns (each `ToolRetType` carries the entry's name). -/
def handleListTools (codec : Codec) (limit : Option Nat) (reg : List String)
    (cursor : Option String) : Except String (List String × Option String) :=
  handleListKeys codec toolStartPosition limit reg cursor

/-- `Server.handleListPrompts` (part_008 1206-1267), restricted to keys. -/
def handleListPrompts (codec : Codec) (limit : Option Nat) (reg : List String)
    (cursor : Option String) : Except String (List String × Option String) :=
  handleListKeys codec promptStartPosition limit reg cursor

/-- `Server.handleListResources` (part_008 1269-1335), restricted to keys
(ordered and cursored by URI). -/
def handleListResources (codec : Codec) (limit : Option Nat) (reg : List String)
    (cursor : Option String) : Except String (List String × Option String) :=
  handleListKeys codec promptStartPosition limit reg cursor

/-- The paging driver the claim describes: feed each response's
`nextCursor` into the next request.  Returns the pages when the chain
reaches a response without `nextCursor` within `fuel` steps, `none`
otherwise. -/
def listPages (step : Option String → Except String (List String × Option String)) :
    Nat → Option String → Option (List (List String))
  | 0, _ => none
  | fuel + 1, cursor =>
      match step cursor with
      | Except.error _ => none
      | Except.ok (page, none) => some [page]
      | Except.ok (page, some nc) =>
          (listPages step fuel (some nc)).map (fun ps => page :: ps)

/- ======================================================================
   Helper lemmas
   ====================================================================== -/

theorem foldl_tag_snd (l : List String) (d0 : Option String) (r0 : Bool) :
    (l.foldl parseJsonschemaTagStep (d0, r0)).2 =
      (r0 || l.any (fun s => s = "required")) := by
  induction l generalizing d0 r0 with
  | nil => simp
  | cons hd tl ih => simp [parseJsonschemaTagStep, ih, Bool.or_assoc]

theorem foldl_tag_fst (l : List String) (d0 : Option String) (r0 : Bool) :
    (l.foldl parseJsonschemaTagStep (d0, r0)).1 =
      (l.filter (fun s => s.startsWith "description=")).foldl
        (fun _ s => some (s.drop 12)) d0 := by
  induction l generalizing d0 r0 with
  | nil => simp
  | cons hd tl ih =>
      by_cases hp : hd.startsWith "description="
      · simp [parseJsonschemaTagStep, hp, ih, List.filter_cons]
      · simp [parseJsonschemaTagStep, hp, ih, List.filter_cons]

theorem contains_append_singleton (l : List Int) (a : Int) :
    (l ++ [a]).contains a = true := by
  induction l with
  | nil => simp
  | cons hd tl ih =>
      simp only [List.cons_append, List.contains_cons, ih, Bool.or_true]

/-- Stepping the buggy prompts pagination on the one-entry registry: every
cursor the chain can produce yields the same full page and the same
next cursor again, so no fuel suffices. -/
theorem promptPagesLoop (fuel : Nat) :
    listPages (handleListPrompts idCodec (some 1) ["a"]) fuel none = none ∧
    listPages (handleListPrompts idCodec (some 1) ["a"]) fuel (some "a") = none := by
  induction fuel with
  | zero => exact ⟨rfl, rfl⟩
  | succ n ih =>
      have h1 : handleListPrompts idCodec (some 1) ["a"] none =
          Except.ok (["a"], some "a") := rfl
      have h2 : handleListPrompts idCodec (some 1) ["a"] (some "a") =
          Except.ok (["a"], some "a") := rfl
      constructor
      · simp [listPages, h1, ih.2]
      · simp [listPages, h2, ih.2]

/- ======================================================================
   Claim theorems
   ====================================================================== -/

/-- Claim C6, evaluated at the failing input: the framing layer classifies
the wire message with a `method` but no `id` as a Request — the
JSONRPCRequest unmarshal attempt comes first and only checks that the
method is non-empty — although the claim (and the file's own header
comment) require it to be a Notification. -/
theorem c6_method_without_id_is_classified_as_request :
    deserializeMessage notificationWithoutId = MessageKind.request ∧
    MessageKind.request ≠ MessageKind.notification := by
  exact ⟨rfl, by decide⟩

/-- Claim C1, evaluated at the failing input: with `Request` pending under
id 0, the message callback installed by `Connect` drops an incoming
response-type message for id 0 (the switch has no response case), so the
blocked caller receives nothing; `handleResponse`, which would deliver the
envelope to exactly the per-id channel, exists in the source but has no
call site. -/
theorem c1_response_message_is_dropped :
    connectMessageHandler (requestSetup (connect newProtocol) false).2
        (BaseMessage.response 0 (Json.str "ok")) =
      ((requestSetup (connect newProtocol) false).2, []) ∧
    handleResponse (requestSetup (connect newProtocol) false).2 0 (Json.str "ok") =
      ((requestSetup (connect newProtocol) false).2,
       [(0, { response := some (Json.str "ok"), err := none })]) := by
  exact ⟨rfl, rfl⟩

/-- Claim C3 counterexample: after `handleClose` on a connected protocol
with a pending request, `p.transport` is still set, so a subsequent
`Request` call is not rejected with the claimed `not connected` error —
the guard at the top of `Request` does not fire. -/
theorem c3_close_keeps_transport_set :
    requestNotConnectedCheck
        (handleClose (requestSetup (connect newProtocol) false).2).1 = none ∧
    (handleClose (requestSetup (connect newProtocol) false).2).1.transportConnected
      = true := by
  exact ⟨rfl, rfl⟩

/-- Claim C3 as amended: once `handleClose` runs, every pending outbound
waiter is woken with a `connection closed` envelope, the request and
notification handler registries are cleared, and every registered inbound
cancel function is invoked; but the transport reference survives, so the
`not connected` rejection of a new `Request` applies exactly when no
transport was ever attached — not after Close. -/
theorem c3_close_semantics (st : ProtocolState) :
    (handleClose st).2.wokenWaiters =
        st.responseHandlers.map (fun id => (id, connectionClosedEnvelope)) ∧
    (∀ w ∈ (handleClose st).2.wokenWaiters, w.2.err = some "connection closed") ∧
    (handleClose st).1.requestHandlers = [] ∧
    (handleClose st).1.notificationHandlers = [] ∧
    (handleClose st).2.cancelledIds = st.requestCancellers ∧
    (handleClose st).1.responseHandlers = [] ∧
    (handleClose st).1.transportConnected = st.transportConnected ∧
    requestNotConnectedCheck (handleClose st).1 = requestNotConnectedCheck st := by
  refine ⟨rfl, ?_, rfl, rfl, rfl, rfl, rfl, rfl⟩
  intro w hw
  simp only [handleClose, List.mem_map] at hw
  obtain ⟨id, _, heq⟩ := hw
  rw [← heq]
  rfl

/-- Claim C10: a handler that fails resource-handler validation — it takes
at least one argument or does not return exactly two values — makes
`RegisterResource` panic with the validation error, while `RegisterTool`
and `RegisterPrompt` return their validators' errors to the caller. -/
theorem c10_resource_validation_panics (h ht : HandlerShape) (str : Bool)
    (fs : List GoFieldType) (e et ep : String)
    (hres : validateResourceHandler h = some e)
    (htool : validateToolHandler ht = some et)
    (hprompt : validatePromptHandler str fs = some ep) :
    registerResourceOutcome h = RegisterOutcome.panicked e ∧
    registerToolOutcome ht = RegisterOutcome.returnedError et ∧
    registerPromptOutcome str fs = RegisterOutcome.returnedError ep ∧
    ((validateResourceHandler h).isSome ↔ (1 ≤ h.numIn ∨ h.numOut ≠ 2)) := by
  refine ⟨?_, ?_, ?_, ?_⟩
  · simp [registerResourceOutcome, hres]
  · simp [registerToolOutcome, htool]
  · simp [registerPromptOutcome, hprompt]
  · constructor
    · intro hs
      by_contra hneg
      push_neg at hneg
      have h1 : h.numIn = 0 := by omega
      have h2 : h.numOut = 2 := hneg.2
      simp [validateResourceHandler, h1, h2] at hs
    · intro hor
      rcases hor with h1 | h2
      · have : h.numIn ≠ 0 := by omega
        simp [validateResourceHandler, this]
      · by_cases h1 : h.numIn = 0
        · simp [validateResourceHandler, h1, h2]
        · simp [validateResourceHandler, h1]

/-- Witness for C10 at concrete handler shapes: a resource handler taking
one argument panics; a tool handler with three return values and a prompt
handler over an int field return errors. -/
theorem c10_resource_validation_panics_witness :
    registerResourceOutcome ⟨1, 2, true, true⟩ =
      RegisterOutcome.panicked "handler must take no arguments, got 1" ∧
    registerToolOutcome ⟨1, 3, true, true⟩ =
      RegisterOutcome.returnedError "handler must return exactly two values, got 3" ∧
    registerPromptOutcome true [⟨"int", none⟩] =
      RegisterOutcome.returnedError
        "all fields of the struct must be of type string or *string, found int" := by
  have h := c10_resource_validation_panics ⟨1, 2, true, true⟩ ⟨1, 3, true, true⟩
    true [⟨"int", none⟩]
    "handler must take no arguments, got 1"
    "handler must return exactly two values, got 3"
    "all fields of the struct must be of type string or *string, found int"
    rfl rfl rfl
  exact ⟨h.1, h.2.1, h.2.2.1⟩

/-- Claim C9 counterexample: for a field declared `Title` with JSON tag
`title`, the advertised prompt-argument name is the declared field name
`Title`, not the JSON tag the claim requires. -/
theorem c9_declared_name_not_json_tag :
    (createPromptSchemaFromHandler
        [{ name := "Title", jsonTag := some "title",
           jsonschemaTag := "description=The title,required" }]).map
        PromptSchemaArgument.name = ["Title"] ∧
    specArgumentName
        { name := "Title", jsonTag := some "title",
          jsonschemaTag := "description=The title,required" } = "title" ∧
    ("Title" : String) ≠ "title" := by
  refine ⟨rfl, rfl, by decide⟩

/-- Claim C9 as amended: the descriptor has exactly one entry per field of
the argument struct, in declaration order; each entry is named after the
DECLARED field name (the JSON tag is never consulted), its description is
the content of the (last) `description=` entry of the `jsonschema`
annotation, and it is required iff that annotation contains `required`. -/
theorem c9_prompt_descriptor_from_fields (fields : List GoField) :
    createPromptSchemaFromHandler fields =
      fields.map (fun f =>
        { name := f.name
          description := tagDescription f.jsonschemaTag
          required := tagRequired f.jsonschemaTag }) := by
  induction fields with
  | nil => rfl
  | cons f fs ih =>
      simp [createPromptSchemaFromHandler, tagDescription, tagRequired,
        foldl_tag_fst, foldl_tag_snd] at ih ⊢

/-- Claim C2, evaluated at the failing input: with one registered prompt
`a` and pagination limit 1, the full page and the same `nextCursor` come
back for both the empty cursor and the cursor the response itself
produces, so the cursor chain repeats the item forever and no amount of
fuel completes it; the tools handler (which tracks `found` in its cursor
scan) terminates on the same registry with the item exactly once. -/
theorem c2_prompts_pagination_never_terminates :
    handleListPrompts idCodec (some 1) ["a"] none = Except.ok (["a"], some "a") ∧
    handleListPrompts idCodec (some 1) ["a"] (some "a") =
      Except.ok (["a"], some "a") ∧
    (∀ fuel, listPages (handleListPrompts idCodec (some 1) ["a"]) fuel none = none) ∧
    listPages (handleListTools idCodec (some 1) ["a"]) 3 none = some [["a"], []] := by
  refine ⟨rfl, rfl, ?_, rfl⟩
  intro fuel
  exact (promptPagesLoop fuel).1

/-- Claim C7: Register and Deregister for tools, prompts and resources
mutate the registry (re-registering a key replaces its entry, deletion
removes it) and the subsequent emission is exactly one null-params
`list_changed` notification of the matching family iff the server is
Running — nothing is emitted while Idle. -/
theorem c7_registration_notifications {T P R : Type}
    (s : ServerRegistries T P R) (name pname uri : String) (te : T) (pe : P)
    (re : R) :
    syncMapLoad (registerTool s name te).1.tools name = some te ∧
    (registerTool s name te).2 =
      (if s.isRunning then [("notifications/tools/list_changed", Json.null)]
       else []) ∧
    syncMapLoad (deregisterTool s name).1.tools name = none ∧
    (deregisterTool s name).2 =
      (if s.isRunning then [("notifications/tools/list_changed", Json.null)]
       else []) ∧
    syncMapLoad (registerPrompt s pname pe).1.prompts pname = some pe ∧
    (registerPrompt s pname pe).2 =
      (if s.isRunning then [("notifications/prompts/list_changed", Json.null)]
       else []) ∧
    syncMapLoad (deregisterPrompt s pname).1.prompts pname = none ∧
    (deregisterPrompt s pname).2 =
      (if s.isRunning then [("notifications/prompts/list_changed", Json.null)]
       else []) ∧
    syncMapLoad (registerResource s uri re).1.resources uri = some re ∧
    (registerResource s uri re).2 =
      (if s.isRunning then [("notifications/resources/list_changed", Json.null)]
       else []) ∧
    syncMapLoad (deregisterResource s uri).1.resources uri = none ∧
    (deregisterResource s uri).2 =
      (if s.isRunning then [("notifications/resources/list_changed", Json.null)]
       else []) := by
  refine ⟨?_, ?_, ?_, ?_, ?_, ?_, ?_, ?_, ?_, ?_, ?_, ?_⟩ <;>
    simp [registerTool, deregisterTool, registerPrompt, deregisterPrompt,
      registerResource, deregisterResource, sendToolListChangedNotification,
      sendPromptListChangedNotification, sendResourceListChangedNotification,
      listChangedNotification, syncMapLoad_store, syncMapLoad_delete]

/-- Claim C5: every failing tools/call handler outcome — including a
failure to decode the arguments into the handler's declared argument type —
serializes as a well-formed tool response whose content is a single text
entry holding the error message, with `isError` true; and the dispatcher
hands it back as a JSON-RPC success result (nil error), not as a
transport-level or JSON-RPC error. -/
theorem c5_tool_errors_become_tool_responses {Args : Type}
    (decodeArguments : Json → Except String Args)
    (handler : Args → Except String ToolResponse)
    (arguments : Json) (toolsReg : List (String × ToolEntry))
    (reqMethod callName : String) (e : String) :
    (∀ msg, marshalToolResponseSent (ToolResponseSent.fail msg) =
        Json.obj [("content", Json.arr [Json.obj [("text", Json.str msg),
                    ("type", Json.str "text")]]),
                  ("isError", Json.bool true)]) ∧
    (decodeArguments arguments = Except.error e →
      createWrappedToolHandler decodeArguments handler arguments =
        ToolResponseSent.fail ("failed to unmarshal arguments: " ++ e)) ∧
    (∀ args, decodeArguments arguments = Except.ok args →
      handler args = Except.error e →
      createWrappedToolHandler decodeArguments handler arguments =
        ToolResponseSent.fail e) ∧
    (∀ entry, syncMapLoad toolsReg callName = some entry →
      handleToolCalls toolsReg reqMethod callName arguments =
        Except.ok (marshalToolResponseSent (entry.handler arguments))) := by
  refine ⟨fun msg => rfl, ?_, ?_, ?_⟩
  · intro hd
    simp [createWrappedToolHandler, hd]
  · intro args hd hh
    simp [createWrappedToolHandler, hd, hh]
  · intro entry hl
    simp [handleToolCalls, hl]

/-- A decoder that always fails, standing for `json.Unmarshal` rejecting
the supplied arguments. -/
def alwaysFailingDecode : Json → Except String Unit :=
  fun _ => Except.error "json: cannot unmarshal"

/-- A handler that never runs in the witness scenario. -/
def unusedUnitHandler : Unit → Except String ToolResponse :=
  fun _ => Except.ok { content := [] }

/-- An entry whose wrapped handler failed with `boom`. -/
def boomToolEntry : ToolEntry :=
  { handler := fun _ => ToolResponseSent.fail "boom" }

/-- Witness for C5: the decode failure becomes a `toolResponseSent` error,
its serialization is the single-text-entry `isError` envelope, and
dispatch returns it as a success result. -/
theorem c5_tool_errors_witness :
    createWrappedToolHandler alwaysFailingDecode unusedUnitHandler Json.null =
      ToolResponseSent.fail "failed to unmarshal arguments: json: cannot unmarshal" ∧
    marshalToolResponseSent (ToolResponseSent.fail "boom") =
      Json.obj [("content", Json.arr [Json.obj [("text", Json.str "boom"),
                  ("type", Json.str "text")]]),
                ("isError", Json.bool true)] ∧
    handleToolCalls [("hello", boomToolEntry)] "tools/call" "hello" Json.null =
      Except.ok (marshalToolResponseSent (boomToolEntry.handler Json.null)) := by
  have h := c5_tool_errors_become_tool_responses alwaysFailingDecode
    unusedUnitHandler Json.null [("hello", boomToolEntry)] "tools/call" "hello"
    "json: cannot unmarshal"
  exact ⟨h.2.1 rfl, h.1 "boom", h.2.2.2 boomToolEntry rfl⟩

/-- Claim C4: a zero `Timeout` option means the 60-second default timeout
is applied — not no timeout — and when the caller's context is cancelled
or the (defaulted) timeout elapses before a response arrives, a
`notifications/cancelled` carrying the allocated request id and a reason
is sent to the peer, and `Request` returns the context error, resp. the
synthetic request-timeout-after error over the applied timeout. -/
theorem c4_timeout_and_cancellation (st : ProtocolState) (method : String)
    (params : Option Json) (opts : RequestOptions) (ce : String)
    (hconn : st.transportConnected = true)
    (hok : ∃ rp, buildRequestParams opts.onProgress
        (requestSetup st opts.onProgress).1 params = Except.ok rp) :
    effectiveTimeout 0 = DefaultRequestTimeoutMsec ∧
    (protoRequest st method params opts SelectOutcome.timedOut).result =
      Except.error (RequestError.timeoutAfter (effectiveTimeout opts.timeout)) ∧
    (opts.timeout = 0 →
      (protoRequest st method params opts SelectOutcome.timedOut).result =
        Except.error (RequestError.timeoutAfter DefaultRequestTimeoutMsec)) ∧
    cancelNotification st.requestMessageID "request timeout" ∈
      (protoRequest st method params opts SelectOutcome.timedOut).sent ∧
    (protoRequest st method params opts (SelectOutcome.ctxDone ce)).result =
      Except.error (RequestError.ctxError ce) ∧
    cancelNotification st.requestMessageID ce ∈
      (protoRequest st method params opts (SelectOutcome.ctxDone ce)).sent ∧
    (∀ rq reason, cancelNotification rq reason =
      Json.obj [("jsonrpc", Json.str "2.0"),
                ("method", Json.str "notifications/cancelled"),
                ("params", Json.obj [("requestId", Json.num rq),
                                     ("reason", Json.str reason)])]) := by
  obtain ⟨rp, hrp⟩ := hok
  have hrp' : buildRequestParams opts.onProgress st.requestMessageID params =
      Except.ok rp := hrp
  refine ⟨rfl, ?_, ?_, ?_, ?_, ?_, fun rq reason => rfl⟩
  · simp [protoRequest, hconn, hrp, hrp']
  · intro h0
    simp [protoRequest, hconn, hrp, hrp', effectiveTimeout, h0]
  · simp [protoRequest, hconn, hrp, hrp', requestSetup]
  · simp [protoRequest, hconn, hrp, hrp']
  · simp [protoRequest, hconn, hrp, hrp', requestSetup]

/-- Witness for C4 at a concrete connected protocol with `Timeout` 0: the
timed-out request returns the synthetic error over the 60 s default and
the cancel notification for id 0 is on the wire. -/
theorem c4_timeout_witness :
    (protoRequest (connect newProtocol) "tools/list" none
        { onProgress := false, timeout := 0 } SelectOutcome.timedOut).result =
      Except.error (RequestError.timeoutAfter DefaultRequestTimeoutMsec) ∧
    cancelNotification 0 "request timeout" ∈
      (protoRequest (connect newProtocol) "tools/list" none
        { onProgress := false, timeout := 0 } SelectOutcome.timedOut).sent := by
  have h := c4_timeout_and_cancellation (connect newProtocol) "tools/list" none
    { onProgress := false, timeout := 0 } "context canceled" rfl ⟨none, rfl⟩
  exact ⟨h.2.2.1 rfl, h.2.2.2.1⟩

/-- Claim C8: with `OnProgress` set, the allocated outbound id is the
progress token — registered before the send and merged into `params` as
`_meta.progressToken`; when `params` is neither nil nor a JSON mapping the
request returns an error and nothing is sent; and a later `$/progress`
notification whose `progressToken` equals the id, arriving while the
request is pending, invokes the registered callback with the decoded
progress and total. -/
theorem c8_progress_token_roundtrip (st : ProtocolState) (method : String)
    (opts : RequestOptions) (p t : Int)
    (honP : opts.onProgress = true) (hconn : st.transportConnected = true) :
    (requestSetup st opts.onProgress).1 = st.requestMessageID ∧
    (requestSetup st opts.onProgress).2.progressHandlers.contains
        st.requestMessageID = true ∧
    buildRequestParams true st.requestMessageID none =
      Except.ok (some (Json.obj [("_meta",
        Json.obj [("progressToken", Json.num st.requestMessageID)])])) ∧
    (∀ kvs, buildRequestParams true st.requestMessageID (some (Json.obj kvs)) =
        Except.ok (some (Json.obj (mapSet kvs "_meta"
          (Json.obj [("progressToken", Json.num st.requestMessageID)])))) ∧
      jsonLookup (mapSet kvs "_meta"
          (Json.obj [("progressToken", Json.num st.requestMessageID)])) "_meta" =
        some (Json.obj [("progressToken", Json.num st.requestMessageID)])) ∧
    (∀ j, (∀ kvs, j ≠ Json.obj kvs) →
      (protoRequest st method (some j) opts SelectOutcome.timedOut).result =
        Except.error RequestError.progressParamsNotMap ∧
      (protoRequest st method (some j) opts SelectOutcome.timedOut).sent = []) ∧
    handleProgressNotification (requestSetup st opts.onProgress).2
        (Json.obj [("progress", Json.num p), ("total", Json.num t),
                   ("progressToken", Json.num st.requestMessageID)]) =
      Except.ok (some (st.requestMessageID, { progress := p, total := t })) := by
  refine ⟨rfl, ?_, rfl, ?_, ?_, ?_⟩
  · simp only [requestSetup, honP]
    exact contains_append_singleton _ _
  · intro kvs
    exact ⟨rfl, jsonLookup_mapSet kvs "_meta" _⟩
  · intro j hj
    cases j with
    | null => simp [protoRequest, hconn, honP, buildRequestParams, requestSetup]
    | bool b => simp [protoRequest, hconn, honP, buildRequestParams, requestSetup]
    | num n => simp [protoRequest, hconn, honP, buildRequestParams, requestSetup]
    | str s => simp [protoRequest, hconn, honP, buildRequestParams, requestSetup]
    | arr items =>
        simp [protoRequest, hconn, honP, buildRequestParams, requestSetup]
    | obj kvs => exact absurd rfl (hj kvs)
  · have hmem : st.requestMessageID ∈
        (requestSetup st opts.onProgress).2.progressHandlers := by
      simp [requestSetup, honP]
    simp [handleProgressNotification, decodeProgressParams, fieldInt,
      jsonLookup, List.lookup, hmem]

/-- Witness for C8 on a fresh connected protocol: id 0 is the token, the
merge places it under `_meta`, a non-mapping param value is rejected with
nothing sent, and `$/progress` with token 0 invokes the callback with
`{50, 100}`. -/
theorem c8_progress_witness :
    buildRequestParams true 0 none =
      Except.ok (some (Json.obj [("_meta",
        Json.obj [("progressToken", Json.num 0)])])) ∧
    (protoRequest (connect newProtocol) "slow" (some (Json.str "x"))
        { onProgress := true, timeout := 1000 } SelectOutcome.timedOut).sent = [] ∧
    handleProgressNotification
        (requestSetup (connect newProtocol) true).2
        (Json.obj [("progress", Json.num 50), ("total", Json.num 100),
                   ("progressToken", Json.num 0)]) =
      Except.ok (some (0, { progress := 50, total := 100 })) := by
  have h := c8_progress_token_roundtrip (connect newProtocol) "slow"
    { onProgress := true, timeout := 1000 } 50 100 rfl rfl
  refine ⟨h.2.2.1, ?_, h.2.2.2.2.2⟩
  exact (h.2.2.2.2.1 (Json.str "x") (fun kvs hk => Json.noConfusion hk)).2

end MCP
